import Mathlib

/-!
Verification of the VoxAura voice-session orchestrator (the `murf` repository).

The Python services under `src/services/` are shallowly embedded as pure Lean
functions over `List Char` (Python `str`) and explicit state/environment
records.  External backends (the Murf synthesis websocket, the AssemblyAI
recognition stream, the Gemini generation backend, and the weather / search /
study / pdf skill services) are modelled as environment parameters: the code
under verification is the orchestration logic itself, which is pure given
those inputs.
-/

/-! ## Generic helpers shared by several services -/

/-- A Lean list of characters for a string literal (Python `str` values). -/
def strL (s : String) : List Char := s.toList

/-- Python `s.lower()` (the messages analysed here are ASCII). -/
def lowerL (m : List Char) : List Char := m.map Char.toLower

/-- Python `k in m` for strings: substring containment. -/
def hasSub (k m : List Char) : Bool := decide (k <:+: m)

/-- Python `s.strip()`: drop whitespace from both ends. -/
def stripL (l : List Char) : List Char :=
  ((l.dropWhile Char.isWhitespace).reverse.dropWhile Char.isWhitespace).reverse

/-- Truthiness of Python `not s or not s.strip()`: the string is empty or
consists only of whitespace. -/
def blankL (l : List Char) : Bool := l.all Char.isWhitespace

/-- Truthiness of Python `s.strip()`: some non-whitespace character exists. -/
def stripNonempty (l : List Char) : Bool := l.any (fun c => !c.isWhitespace)

/-- The slice list produced by the Python idiom
`[s[i:i+n] for i in range(0, len(s), n)]`:
`range(0, L, n)` has `⌈L / n⌉ = (L + (n-1)) / n` elements `0, n, 2n, …`, and
the slice `s[i:i+n]` is `(s.drop i).take n`. -/
def pyChunks (n : Nat) (l : List α) : List (List α) :=
  (List.range' 0 ((l.length + (n - 1)) / n) n).map (fun i => (l.drop i).take n)

lemma range'_shift (step k : Nat) : ∀ s : Nat,
    List.range' (s + step) k step = (List.range' s k step).map (· + step) := by
  induction k with
  | zero => intro s; simp [List.range']
  | succ k ih =>
      intro s
      simp only [List.range', List.map_cons]
      rw [ih (s + step)]

lemma pyChunks_nil (n : Nat) (hn : 0 < n) : pyChunks n ([] : List α) = [] := by
  unfold pyChunks
  have h : (([] : List α).length + (n - 1)) / n = 0 := by
    simp only [List.length_nil, Nat.zero_add]
    exact Nat.div_eq_of_lt (by omega)
  rw [h]
  simp [List.range']

lemma pyChunks_cons (n : Nat) (hn : 0 < n) (l : List α) (hl : l ≠ []) :
    pyChunks n l = l.take n :: pyChunks n (l.drop n) := by
  have hL : 0 < l.length := List.length_pos.mpr hl
  have hdrop : (l.drop n).length = l.length - n := List.length_drop n l
  have hcount : (l.length + (n - 1)) / n = ((l.drop n).length + (n - 1)) / n + 1 := by
    rw [hdrop]
    have h1 : l.length + (n - 1) = (l.length - 1) + n := by omega
    have h2 : (l.length - n + (n - 1)) / n = (l.length - 1) / n := by
      rcases le_or_lt l.length n with hle | hlt
      · have e1 : l.length - n = 0 := by omega
        rw [e1, Nat.zero_add]
        rw [Nat.div_eq_of_lt (by omega), Nat.div_eq_of_lt (by omega)]
      · congr 1
        omega
    rw [h1, Nat.add_div_right _ hn, h2]
  unfold pyChunks
  rw [hcount]
  simp only [List.range', List.map_cons, List.drop_zero, Nat.zero_add]
  congr 1
  have hsh := range'_shift n (((l.drop n).length + (n - 1)) / n) 0
  rw [Nat.zero_add] at hsh
  rw [hsh, List.map_map]
  apply List.map_congr_left
  intro j _
  simp only [Function.comp_apply]
  rw [List.drop_drop, Nat.add_comm j n]

lemma pyChunks_flatten_aux (n : Nat) (hn : 0 < n) :
    ∀ (fuel : Nat) (l : List α), l.length ≤ fuel → (pyChunks n l).flatten = l := by
  intro fuel
  induction fuel with
  | zero =>
      intro l hl
      have : l = [] := List.eq_nil_of_length_eq_zero (by omega)
      subst this
      rw [pyChunks_nil n hn]
      rfl
  | succ fuel ih =>
      intro l hl
      rcases eq_or_ne l [] with h | h
      · subst h; rw [pyChunks_nil n hn]; rfl
      · rw [pyChunks_cons n hn l h, List.flatten_cons,
          ih (l.drop n) (by
            have := List.length_drop n l
            have : (l.drop n).length = l.length - n := this
            have hL : 0 < l.length := List.length_pos.mpr h
            omega)]
        exact List.take_append_drop n l

lemma pyChunks_flatten (n : Nat) (hn : 0 < n) (l : List α) :
    (pyChunks n l).flatten = l :=
  pyChunks_flatten_aux n hn l.length l le_rfl

lemma pyChunks_sizes (n : Nat) (hn : 0 < n) (l : List α) :
    ((pyChunks n l).map List.length).sum = l.length := by
  rw [← List.length_flatten, pyChunks_flatten n hn]

lemma enumFrom_map_fst_succ (l : List α) : ∀ k : Nat,
    (List.enumFrom k l).map (fun p => p.1 + 1) = List.range' (k + 1) l.length := by
  induction l with
  | nil => intro k; simp [List.range']
  | cons a l ih =>
      intro k
      simp only [List.enumFrom, List.map_cons, List.length_cons, List.range']
      rw [ih (k + 1)]

/-! ## C1: `WebSocketService.stream_audio_to_client` (websocket_service.py 559-633)

The method splits the base64 audio string into 1024-character slices, emits an
`audio_chunk_streamed` event per slice carrying `chunk_index = index + 1`,
`chunk_size = len(chunk)` and `total_chunks = len(chunks)` (the chunk list is
computed before the loop), and finally emits `audio_stream_complete` with
`total_chunks = len(chunks)` and `total_size = len(base64_audio)`. -/

structure AudioChunkEvent where
  chunk_index : Nat
  chunk_size : Nat
  total_chunks : Nat
  deriving DecidableEq

structure AudioCompleteEvent where
  total_chunks : Nat
  total_size : Nat
  deriving DecidableEq

/-- The chunk events emitted by `stream_audio_to_client` for one payload. -/
def streamAudioChunks (audio : List Char) : List AudioChunkEvent :=
  (pyChunks 1024 audio).enum.map (fun p =>
    { chunk_index := p.1 + 1, chunk_size := p.2.length,
      total_chunks := (pyChunks 1024 audio).length })

/-- The `audio_stream_complete` event emitted after the chunk loop. -/
def streamAudioComplete (audio : List Char) : AudioCompleteEvent :=
  { total_chunks := (pyChunks 1024 audio).length, total_size := audio.length }

/-- C1: for every base64 audio payload, the emitted chunk indices are exactly
`1..N` with no gaps, every chunk carries the same `total_chunks` value `N`
(the value declared in the completion event, fixed before the loop), and the
emitted chunk sizes sum to the `total_size` declared in
`audio_stream_complete`. -/
theorem stream_audio_chunk_contract (audio : List Char) :
    (streamAudioChunks audio).map AudioChunkEvent.chunk_index
        = List.range' 1 (streamAudioComplete audio).total_chunks
    ∧ (∀ e ∈ streamAudioChunks audio,
        e.total_chunks = (streamAudioComplete audio).total_chunks)
    ∧ ((streamAudioChunks audio).map AudioChunkEvent.chunk_size).sum
        = (streamAudioComplete audio).total_size := by
  refine ⟨?_, ?_, ?_⟩
  · unfold streamAudioChunks
    rw [List.map_map]
    have h := enumFrom_map_fst_succ (pyChunks 1024 audio) 0
    have hcomp : (AudioChunkEvent.chunk_index ∘ fun p : Nat × List Char =>
        ({ chunk_index := p.1 + 1, chunk_size := p.2.length,
           total_chunks := (pyChunks 1024 audio).length } : AudioChunkEvent))
        = fun p : Nat × List Char => p.1 + 1 := rfl
    rw [hcomp]
    simpa [List.enum, streamAudioComplete] using h
  · intro e he
    simp only [streamAudioChunks, List.mem_map] at he
    obtain ⟨p, _, hp⟩ := he
    rw [← hp]
    rfl
  · unfold streamAudioChunks
    rw [List.map_map]
    have hcomp : (AudioChunkEvent.chunk_size ∘ fun p : Nat × List Char =>
        ({ chunk_index := p.1 + 1, chunk_size := p.2.length,
           total_chunks := (pyChunks 1024 audio).length } : AudioChunkEvent))
        = fun p : Nat × List Char => p.2.length := rfl
    rw [hcomp]
    have h3 : ((pyChunks 1024 audio).enum.map (fun p : Nat × List Char => p.2.length))
        = ((pyChunks 1024 audio).enum.map Prod.snd).map List.length := by
      rw [List.map_map]
      rfl
    rw [h3, List.enum_map_snd, pyChunks_sizes 1024 (by omega)]
    rfl

/-! ## C2: `WebSocketService.register_session` (websocket_service.py 39-55)

The method overwrites `active_sessions[socket_id]` and `audio_streams[socket_id]`
with fresh entries.  It never touches `transcription_sessions`, the
`RealtimeSTTService` stream (`is_streaming`), or any running streaming task.
Python dicts are modelled as association lists; assignment replaces any
existing binding for the key. -/

structure SessionInfo where
  session_id : List Char
  connected_at : List Char
  message_count : Nat
  deriving DecidableEq

structure AudioStreamInfo where
  chunks_sent : Nat
  total_size : Nat
  start_time : List Char
  active : Bool
  deriving DecidableEq

structure WsState where
  activeSessions : List (List Char × SessionInfo)
  audioStreams : List (List Char × AudioStreamInfo)
  transcriptionSessions : List (List Char)
  sttStreaming : Bool
  deriving DecidableEq

/-- Python dict assignment `m[k] = v` on an association-list model. -/
def dictSet (m : List (List Char × α)) (k : List Char) (v : α) : List (List Char × α) :=
  (k, v) :: m.filter (fun p => decide (p.1 ≠ k))

/-- `WebSocketService.register_session`: installs fresh `active_sessions` and
`audio_streams` entries for the socket; nothing else changes. -/
def registerSession (st : WsState) (sessionId socketId now : List Char) : WsState :=
  { st with
    activeSessions := dictSet st.activeSessions socketId
      { session_id := sessionId, connected_at := now, message_count := 0 },
    audioStreams := dictSet st.audioStreams socketId
      { chunks_sent := 0, total_size := 0, start_time := now, active := false } }

/-- A state in which socket `"sock1"` already has a registered session and an
active recognition stream. -/
def wsStateBusy : WsState :=
  { activeSessions := [(strL "sock1",
      { session_id := strL "sess1", connected_at := strL "t0", message_count := 3 })],
    audioStreams := [(strL "sock1",
      { chunks_sent := 2, total_size := 99, start_time := strL "t0", active := true })],
    transcriptionSessions := [strL "sock1"],
    sttStreaming := true }

/-- C2 counterexample: re-registering `"sock1"` (which has an active recognition
stream) leaves the recognition stream running and the transcription session in
place — the claimed stop before replacement does not happen. -/
theorem register_session_no_stop_counterexample :
    (registerSession wsStateBusy (strL "sess2") (strL "sock1") (strL "t1")).sttStreaming = true
    ∧ strL "sock1" ∈
        (registerSession wsStateBusy (strL "sess2") (strL "sock1") (strL "t1")).transcriptionSessions := by
  constructor
  · rfl
  · simp [registerSession, wsStateBusy]

/-- C2 amended: calling `register_session` a second time for a connection id
replaces the `active_sessions` and `audio_streams` entries with fresh state,
but it does not stop the previously active recognition stream nor remove the
transcription session (and it touches no streaming task). -/
theorem register_session_replaces_without_stopping
    (st : WsState) (sessionId socketId now : List Char) :
    (registerSession st sessionId socketId now).sttStreaming = st.sttStreaming
    ∧ (registerSession st sessionId socketId now).transcriptionSessions
        = st.transcriptionSessions
    ∧ List.lookup socketId (registerSession st sessionId socketId now).activeSessions
        = some { session_id := sessionId, connected_at := now, message_count := 0 }
    ∧ List.lookup socketId (registerSession st sessionId socketId now).audioStreams
        = some { chunks_sent := 0, total_size := 0, start_time := now, active := false } := by
  simp [registerSession, dictSet, List.lookup]

/-! ## C4: `WebSocketService.start_realtime_transcription` (websocket_service.py
288-323) and `RealtimeSTTService.start_streaming_transcription`
(realtime_stt_service.py 49-112)

When the AssemblyAI key is absent, the orchestrator returns a configuration
error dict at once; `start_streaming_transcription` is never called, so no
websocket is opened (`networkAttempts` counts `websocket.WebSocketApp`
constructions), `is_streaming` stays false and no transcription session is
recorded. -/

structure SttServiceState where
  configured : Bool
  transcriptionSessions : List (List Char)
  isStreaming : Bool
  networkAttempts : Nat
  deriving DecidableEq

structure StatusResult where
  status : List Char
  message : List Char
  deriving DecidableEq

/-- `RealtimeSTTService.start_streaming_transcription`: refuses without a key;
otherwise opens the websocket (one network attempt) and reports whether the
connection was established before the timeout (`connectOk`). -/
def startStreamingTranscription (st : SttServiceState) (connectOk : Bool) :
    Bool × SttServiceState :=
  if !st.configured then (false, st)
  else if connectOk then
    (true, { st with isStreaming := true, networkAttempts := st.networkAttempts + 1 })
  else (false, { st with networkAttempts := st.networkAttempts + 1 })

/-- `WebSocketService.start_realtime_transcription`. -/
def startRealtimeTranscription (st : SttServiceState) (socketId : List Char)
    (connectOk : Bool) : StatusResult × SttServiceState :=
  if !st.configured then
    ({ status := strL "error",
       message := strL "AssemblyAI API key not configured. Please set ASSEMBLYAI_API_KEY environment variable." },
     st)
  else
    match startStreamingTranscription st connectOk with
    | (true, st') =>
        ({ status := strL "started",
           message := strL "Real-time transcription started with AssemblyAI and turn detection" },
         { st' with transcriptionSessions := socketId :: st'.transcriptionSessions })
    | (false, st') =>
        ({ status := strL "error",
           message := strL "Failed to connect to AssemblyAI. Check your API key and internet connection." },
         st')

/-- C4: with no recognition credentials, starting real-time transcription
returns status `"error"` with a configuration message, makes zero network
attempts, and leaves the whole transcription state (including `is_streaming`
and the session table) untouched. -/
theorem start_transcription_unconfigured (st : SttServiceState)
    (h : st.configured = false) (socketId : List Char) (connectOk : Bool) :
    (startRealtimeTranscription st socketId connectOk).1.status = strL "error"
    ∧ hasSub (strL "not configured")
        (startRealtimeTranscription st socketId connectOk).1.message = true
    ∧ (startRealtimeTranscription st socketId connectOk).2 = st := by
  unfold startRealtimeTranscription
  rw [h]
  refine ⟨rfl, ?_, rfl⟩
  show hasSub (strL "not configured")
      (strL "AssemblyAI API key not configured. Please set ASSEMBLYAI_API_KEY environment variable.")
    = true
  decide

theorem start_transcription_unconfigured_witness :
    (startRealtimeTranscription
        { configured := false, transcriptionSessions := [], isStreaming := false,
          networkAttempts := 0 } (strL "sock1") true).1.status = strL "error"
    ∧ hasSub (strL "not configured")
        (startRealtimeTranscription
          { configured := false, transcriptionSessions := [], isStreaming := false,
            networkAttempts := 0 } (strL "sock1") true).1.message = true
    ∧ (startRealtimeTranscription
        { configured := false, transcriptionSessions := [], isStreaming := false,
          networkAttempts := 0 } (strL "sock1") true).2
      = { configured := false, transcriptionSessions := [], isStreaming := false,
          networkAttempts := 0 } :=
  start_transcription_unconfigured _ rfl _ _

/-! ## C5: `RealtimeSTTService._on_message` (realtime_stt_service.py 148-199)

Backend messages carry a `message_type`.  A `PartialTranscript` with non-empty
stripped text invokes only the transcription callback; a `FinalTranscript`
with non-empty stripped text invokes the transcription callback and then the
turn-detection callback; `SessionBegins` / `SessionTerminated` / anything else
invoke no callback.  Both callbacks are installed by
`start_streaming_transcription`, so we record their invocations as events. -/

inductive SttMsg where
  /-- a `PartialTranscript` backend message -/
  | interim (text : List Char)
  /-- a `FinalTranscript` backend message -/
  | finalT (text : List Char)
  /-- a `SessionBegins` backend message -/
  | begins
  /-- a `SessionTerminated` backend message -/
  | terminated
  /-- any other message -/
  | unknown
  deriving DecidableEq

inductive SttEvent where
  | transcription (text : List Char)
  | turn (text : List Char)
  deriving DecidableEq

/-- The callback invocations `_on_message` performs for one backend message. -/
def onMessageEvents : SttMsg → List SttEvent
  | .interim t => if stripL t = [] then [] else [.transcription (stripL t)]
  | .finalT t =>
      if stripL t = [] then []
      else [.transcription (stripL t), .turn (stripL t)]
  | .begins => []
  | .terminated => []
  | .unknown => []

/-- C5: the turn-detection callback fires only for a `FinalTranscript` message
with non-empty stripped text, and a message sequence consisting solely of
`PartialTranscript` messages never produces a turn event. -/
theorem turn_only_from_final :
    (∀ (msg : SttMsg) (t : List Char), SttEvent.turn t ∈ onMessageEvents msg →
        ∃ u, msg = SttMsg.finalT u ∧ stripL u = t ∧ stripL u ≠ [])
    ∧ ∀ msgs : List SttMsg, (∀ m ∈ msgs, ∃ u, m = SttMsg.interim u) →
        ∀ t, SttEvent.turn t ∉ (msgs.map onMessageEvents).flatten := by
  constructor
  · intro msg t hmem
    cases msg with
    | interim u =>
        simp only [onMessageEvents] at hmem
        split at hmem <;> simp_all
    | finalT u =>
        refine ⟨u, rfl, ?_, ?_⟩ <;>
          · simp only [onMessageEvents] at hmem
            split at hmem <;> simp_all
    | begins => simp [onMessageEvents] at hmem
    | terminated => simp [onMessageEvents] at hmem
    | unknown => simp [onMessageEvents] at hmem
  · intro msgs hall t
    induction msgs with
    | nil => simp
    | cons m rest ih =>
        obtain ⟨u, hu⟩ := hall m (List.mem_cons_self m rest)
        subst hu
        simp only [List.map_cons, List.flatten_cons, List.mem_append]
        rintro (hin | hin)
        · simp only [onMessageEvents] at hin
          split at hin <;> simp_all
        · exact ih (fun m hm => hall m (List.mem_cons_of_mem _ hm)) hin

/-- C5 witness: a concrete all-partial sequence produces no turn event. -/
theorem turn_only_from_final_witness :
    SttEvent.turn (strL "hello") ∉
      (([SttMsg.interim (strL "hello"), SttMsg.interim (strL " ")].map
          onMessageEvents).flatten) :=
  turn_only_from_final.2 [SttMsg.interim (strL "hello"), SttMsg.interim (strL " ")]
    (by
      intro m hm
      simp only [List.mem_cons, List.not_mem_nil, or_false] at hm
      rcases hm with rfl | rfl
      · exact ⟨strL "hello", rfl⟩
      · exact ⟨strL " ", rfl⟩)
    (strL "hello")

/-! ## C10: `MurfWebSocketService.connect` (murf_websocket_service.py 32-66) and
`WebSocketService.start_murf_websocket` (websocket_service.py 446-471)

`connect` returns `False` only when the API key is absent.  With a key it
returns `True` on a successful websocket connection (setting `is_connected`)
and — in the `except` branch — also returns `True` after a failed connection
attempt, leaving `is_connected = False`.  `start_murf_websocket` treats any
`True` as connected: it adds the socket to `murf_sessions` and reports status
`'connected'`. -/

/-- `MurfWebSocketService.connect`, returning
(return value, `is_connected` afterwards); `attemptOk` is whether
`websockets.connect` succeeds, `prior` the previous `is_connected`. -/
def murfConnect (configured attemptOk prior : Bool) : Bool × Bool :=
  if !configured then (false, prior)
  else if attemptOk then (true, true)
  else (true, false)

structure MurfStartResult where
  status : List Char
  message : List Char
  deriving DecidableEq

/-- `WebSocketService.start_murf_websocket`, given `connect`'s return value;
returns the reply dict and the updated `murf_sessions` set. -/
def startMurfWebsocket (murfSessions : List (List Char)) (socketId : List Char)
    (connected : Bool) : MurfStartResult × List (List Char) :=
  if connected then
    ({ status := strL "connected", message := strL "Murf WebSocket connected successfully" },
     socketId :: murfSessions)
  else
    ({ status := strL "error", message := strL "Failed to connect to Murf WebSocket" },
     murfSessions)

/-- C10: `connect` returns `False` exactly when the API key is absent; with a
key and a failing connection attempt it returns `True` while leaving
`is_connected = False`, and `start_murf_websocket` then still reports status
`'connected'` and adds the session to the active synthesis-session set. -/
theorem murf_connect_true_despite_failure (cfg att prior : Bool) :
    ((murfConnect cfg att prior).1 = false ↔ cfg = false)
    ∧ (cfg = true → att = false → murfConnect cfg att prior = (true, false))
    ∧ (cfg = true → ∀ (sessions : List (List Char)) (sock : List Char),
        (startMurfWebsocket sessions sock (murfConnect cfg att prior).1).1.status
            = strL "connected"
        ∧ sock ∈ (startMurfWebsocket sessions sock (murfConnect cfg att prior).1).2) := by
  cases cfg <;> cases att <;> cases prior <;>
    simp [murfConnect, startMurfWebsocket]

/-- C10 witness: concrete instance — key configured, connection attempt fails:
`connect` returns `True` with `is_connected = False` and the session is still
registered as connected. -/
theorem murf_connect_true_despite_failure_witness :
    murfConnect true false false = (true, false)
    ∧ (startMurfWebsocket [] (strL "sock1") (murfConnect true false false).1).1.status
        = strL "connected"
    ∧ strL "sock1" ∈ (startMurfWebsocket [] (strL "sock1") (murfConnect true false false).1).2 :=
  ⟨(murf_connect_true_despite_failure true false false).2.1 rfl rfl,
   ((murf_connect_true_despite_failure true false false).2.2 rfl [] (strL "sock1")).1,
   ((murf_connect_true_despite_failure true false false).2.2 rfl [] (strL "sock1")).2⟩

/-! ## C3 / C9: `MurfWebSocketService.send_text_for_tts` and
`_generate_mock_base64_audio` (murf_websocket_service.py 81-175)

`send_text_for_tts` returns `None` for blank text.  Otherwise every failure
path — no connection and no websocket object, a reconnect that returns
`False`, a backend error response, an empty `audio_data`, a timeout, or any
other exception — falls back to `_generate_mock_base64_audio(text)`, which
embeds `len(text)` and `datetime.now().timestamp()` into a fixed template,
base64-encodes it, and pads with `'A'` up to a multiple of 200.  The current
timestamp makes the mock payload time-dependent. -/

def b64Chars : List Char :=
  strL "ABCDEFGHIJKLMNOPQRSTUVWXYZabcdefghijklmnopqrstuvwxyz0123456789+/"

def b64At (i : Nat) : Char := b64Chars.getD i '?'

/-- Standard base64 of a byte list (`base64.b64encode`). -/
def base64Encode : List Nat → List Char
  | [] => []
  | [b1] => [b64At (b1 / 4), b64At (b1 % 4 * 16), '=', '=']
  | [b1, b2] => [b64At (b1 / 4), b64At (b1 % 4 * 16 + b2 / 16), b64At (b2 % 16 * 4), '=']
  | b1 :: b2 :: b3 :: rest =>
      b64At (b1 / 4) :: b64At (b1 % 4 * 16 + b2 / 16)
        :: b64At (b2 % 16 * 4 + b3 / 64) :: b64At (b3 % 64) :: base64Encode rest

/-- `MurfWebSocketService._generate_mock_base64_audio`; `now` is the decimal
rendering of `datetime.now().timestamp()` at the moment of the call. -/
def mockBase64Audio (text now : List Char) : List Char :=
  let mockData := strL "MOCK_AUDIO_DATA_FOR_TEXT_" ++ Nat.toDigits 10 text.length
      ++ strL "_CHARS_" ++ now
  let enc := base64Encode (mockData.map Char.toNat)
  enc ++ List.replicate (200 - enc.length % 200) 'A'

/-- Outcome of the send/receive exchange with the Murf backend. -/
inductive MurfBackend where
  /-- `status == 'success'` with an `audio_data` field (possibly empty) -/
  | success (audio : List Char)
  /-- non-success status or missing `audio_data` -/
  | errorResp
  /-- `asyncio.TimeoutError` while waiting for the reply -/
  | timeout
  /-- any other exception while sending/receiving -/
  | exn
  deriving DecidableEq

structure MurfEnv where
  /-- `self.is_connected` -/
  connected : Bool
  /-- `self.websocket is not None` -/
  hasWebsocket : Bool
  /-- `MURF_API_KEY` present -/
  configured : Bool
  /-- whether `websockets.connect` would succeed if attempted -/
  connectAttemptOk : Bool
  backend : MurfBackend
  /-- `datetime.now().timestamp()` rendered as text -/
  now : List Char
  deriving DecidableEq

/-- `send_text_for_tts` from the point where the request is sent: a successful
reply with non-empty audio is returned as-is; an empty `audio_data` raises and
is caught by the generic handler; error / timeout / exception all fall back to
the mock payload. -/
def murfSendBody (env : MurfEnv) (t : List Char) : List Char :=
  match env.backend with
  | .success audio => if audio.isEmpty then mockBase64Audio t env.now else audio
  | .errorResp => mockBase64Audio t env.now
  | .timeout => mockBase64Audio t env.now
  | .exn => mockBase64Audio t env.now

/-- `MurfWebSocketService.send_text_for_tts`. -/
def sendTextForTTS (env : MurfEnv) (t : List Char) : Option (List Char) :=
  if blankL t then none
  else if !env.connected && !env.hasWebsocket then some (mockBase64Audio t env.now)
  else if !env.connected then
    if (murfConnect env.configured env.connectAttemptOk env.connected).1 then
      some (murfSendBody env t)
    else some (mockBase64Audio t env.now)
  else some (murfSendBody env t)

/-- C9: `send_text_for_tts` returns `None` exactly for blank (empty or
whitespace-only) text; every non-blank text yields a non-`None` audio string,
whatever the backend does. -/
theorem send_text_for_tts_none_iff_blank (env : MurfEnv) (t : List Char) :
    (sendTextForTTS env t = none ↔ blankL t = true)
    ∧ (blankL t = false → ∃ a, sendTextForTTS env t = some a) := by
  constructor
  · unfold sendTextForTTS
    split
    · simp_all
    · constructor
      · intro h
        split at h
        · simp_all
        · split at h
          · split at h <;> simp_all
          · simp_all
      · intro h
        simp_all
  · intro hb
    unfold sendTextForTTS
    rw [hb]
    simp only [Bool.false_eq_true, if_false]
    split
    · exact ⟨_, rfl⟩
    · split
      · split
        · exact ⟨_, rfl⟩
        · exact ⟨_, rfl⟩
      · exact ⟨_, rfl⟩

/-- C9 witness: concrete blank and non-blank inputs under a timing-out
backend. -/
theorem send_text_for_tts_none_iff_blank_witness :
    (sendTextForTTS
        { connected := true, hasWebsocket := true, configured := true,
          connectAttemptOk := true, backend := .timeout, now := strL "1700000000.5" }
        (strL " ") = none ↔ blankL (strL " ") = true)
    ∧ (blankL (strL "hi") = false →
        ∃ a, sendTextForTTS
          { connected := true, hasWebsocket := true, configured := true,
            connectAttemptOk := true, backend := .timeout, now := strL "1700000000.5" }
          (strL "hi") = some a) :=
  ⟨(send_text_for_tts_none_iff_blank _ _).1, (send_text_for_tts_none_iff_blank _ _).2⟩

/-- Whether the exchange with the backend ends in a fallback
(`status != 'success'`, empty audio, timeout, or exception). -/
def murfBackendFails : MurfBackend → Bool
  | .success audio => audio.isEmpty
  | .errorResp => true
  | .timeout => true
  | .exn => true

/-- The failure modes of a synthesis call: unreachable (no live connection and
no websocket object), unconfigured (reconnect refused for lack of a key), or a
failed backend exchange. -/
def murfFailureMode (env : MurfEnv) : Bool :=
  (!env.connected && !env.hasWebsocket)
    || (!env.connected && !env.configured)
    || murfBackendFails env.backend

/-- C3 counterexample: two invocations for the same input text `"hi"`, under
the same failure mode but at different times, produce different mock payloads
— generation is not deterministic in the input text. -/
theorem mock_payload_time_dependent_counterexample :
    sendTextForTTS
        { connected := false, hasWebsocket := false, configured := false,
          connectAttemptOk := false, backend := .exn, now := strL "1700000000.1" }
        (strL "hi")
      ≠ sendTextForTTS
        { connected := false, hasWebsocket := false, configured := false,
          connectAttemptOk := false, backend := .exn, now := strL "1700000000.2" }
        (strL "hi") := by
  decide

/-- C3 amended: whenever the backend is unconfigured, unreachable, times out or
errors, `send_text_for_tts` substitutes the generated mock payload instead of
failing; the payload is a function of the input text's length and the
invocation time (so it differs between invocations at different times). -/
theorem send_text_for_tts_mock_on_failure (env : MurfEnv) (t : List Char)
    (hb : blankL t = false) (hfail : murfFailureMode env = true) :
    sendTextForTTS env t = some (mockBase64Audio t env.now)
    ∧ ∀ t' : List Char, t'.length = t.length →
        mockBase64Audio t' env.now = mockBase64Audio t env.now := by
  constructor
  · rcases env with ⟨conn, hws, cfg, att, backend, now⟩
    cases conn <;> cases hws <;> cases cfg <;> cases att <;> cases backend <;>
      simp_all [sendTextForTTS, murfConnect, murfSendBody, murfFailureMode,
        murfBackendFails, List.isEmpty_iff]
  · intro t' ht
    unfold mockBase64Audio
    rw [ht]

/-- C3 witness: the amended statement at a concrete unreachable environment. -/
theorem send_text_for_tts_mock_on_failure_witness :
    sendTextForTTS
        { connected := false, hasWebsocket := false, configured := true,
          connectAttemptOk := true, backend := .success (strL "AUDIO"),
          now := strL "1700000000.1" }
        (strL "hi")
      = some (mockBase64Audio (strL "hi") (strL "1700000000.1")) :=
  (send_text_for_tts_mock_on_failure
    { connected := false, hasWebsocket := false, configured := true,
      connectAttemptOk := true, backend := .success (strL "AUDIO"),
      now := strL "1700000000.1" }
    (strL "hi") (by decide) (by decide)).1

/-! ## C6 / C7 / C8: `LLMService.generate_streaming_response`
(llm_service.py 172-333) and the skill interceptors (412-471, 557-624,
680-746, 776-844)

Interceptor detection is a keyword-substring test on the lowercased message;
whenever the keyword test fires, the corresponding handler returns a reply
dict (so detection ⇔ interception).  The reply text of a skill comes from an
external service and is abstracted as an environment function.  A skill reply
is streamed to the callback as 3-word groups (`' '.join(words[i:i+3]) + ' '`).
With no interceptor and no configured backend, a scripted Day-20 fallback is
split on `'. '` and re-emitted chunk by chunk.  With a configured backend the
accumulated streamed text is truncated to `[:2900] + '...'` when longer than
3000 characters. -/

def weatherKeywords : List (List Char) :=
  [strL "weather", strL "temperature", strL "forecast", strL "climate",
   strL "hot", strL "cold", strL "rain", strL "sunny"]

def searchKeywords : List (List Char) :=
  [strL "search for", strL "look up", strL "find information", strL "google",
   strL "what is", strL "who is", strL "tell me about"]

def studyKeywords : List (List Char) :=
  [strL "summarize", strL "summary", strL "explain", strL "concept",
   strL "flashcard", strL "quiz", strL "study", strL "learn",
   strL "document", strL "article"]

def pdfKeywords : List (List Char) :=
  [strL "pdf", strL "document", strL "file", strL "upload",
   strL "summarize pdf", strL "analyze document"]

def isWeatherRequest (m : List Char) : Bool :=
  weatherKeywords.any (fun k => hasSub k (lowerL m))

def isSearchRequest (m : List Char) : Bool :=
  searchKeywords.any (fun k => hasSub k (lowerL m))

def isStudyRequest (m : List Char) : Bool :=
  studyKeywords.any (fun k => hasSub k (lowerL m))

def isPdfRequest (m : List Char) : Bool :=
  pdfKeywords.any (fun k => hasSub k (lowerL m))

/-- Python `s.split('. ')`: leftmost, non-overlapping cuts at `". "`. -/
def splitDotSpace : List Char → List (List Char)
  | [] => [[]]
  | [c] => [[c]]
  | c :: d :: rest =>
      if c = '.' ∧ d = ' ' then [] :: splitDotSpace rest
      else (splitDotSpace (d :: rest)).modifyHead (c :: ·)

/-- Python `s.split(' ')` (explicit separator: empty fields kept). -/
def splitSpaceSep : List Char → List (List Char)
  | [] => [[]]
  | ' ' :: rest => [] :: splitSpaceSep rest
  | c :: rest => (splitSpaceSep rest).modifyHead (c :: ·)

/-- The chunks delivered to the callback for a skill reply:
`' '.join(words[i:i+3]) + ' '` over 3-word slices of `response.split(' ')`. -/
def skillStreamChunks (resp : List Char) : List (List Char) :=
  (pyChunks 3 (splitSpaceSep resp)).map (fun g => List.intercalate [' '] g ++ [' '])

def day20FallbackPre : List Char := strL "Hello! You said: '"

def day20FallbackSuf : List Char :=
  strL "'. This is a Day 20 test response for Murf WebSocket integration. The streaming LLM would normally provide a more detailed response here."

/-- The scripted Day-20 fallback reply for an unconfigured backend. -/
def day20Fallback (m : List Char) : List Char :=
  day20FallbackPre ++ m ++ day20FallbackSuf

/-- The chunks delivered to the callback on the fallback path: split on
`'. '`, keep chunks with non-blank `strip()`, re-append `'. '` (or `' '` when
the chunk already ends in `'.'`). -/
def fallbackStreamChunks (fb : List Char) : List (List Char) :=
  ((splitDotSpace fb).filter (fun c => decide (stripL c ≠ []))).map
    (fun c => if c.getLast? = some '.' then c ++ [' '] else c ++ strL ". ")

structure GenEnv where
  /-- Gemini key present and library initialised -/
  configured : Bool
  /-- reply text of the weather skill for a message (external service) -/
  weatherReply : List Char → List Char
  /-- reply text of the web-search skill (external service) -/
  searchReply : List Char → List Char
  /-- reply text of the study-assistant skill (external service) -/
  studyReply : List Char → List Char
  /-- reply text of the pdf skill -/
  pdfReply : List Char → List Char
  /-- the `chunk.text` values yielded by `model.generate_content(stream=True)` -/
  backendChunks : List (List Char)
  /-- whether the streaming iteration raises -/
  backendRaises : Bool

structure GenResult where
  success : Bool
  response : List Char
  model_used : List Char
  callbackChunks : List (List Char)
  backendInvoked : Bool

/-- The text accumulated from the backend stream (non-empty `chunk.text`
values concatenated). -/
def backendAccumulated (env : GenEnv) : List Char :=
  (env.backendChunks.filter (fun c => decide (c ≠ []))).flatten

/-- `LLMService.generate_streaming_response` (the error dicts carry no
`response`/`model_used`; both are modelled as `[]` there). -/
def generateStreamingResponse (env : GenEnv) (m : List Char) : GenResult :=
  if isWeatherRequest m then
    { success := true, response := env.weatherReply m,
      model_used := strL "weather-skill",
      callbackChunks := skillStreamChunks (env.weatherReply m),
      backendInvoked := false }
  else if isSearchRequest m then
    { success := true, response := env.searchReply m,
      model_used := strL "web-search-skill",
      callbackChunks := skillStreamChunks (env.searchReply m),
      backendInvoked := false }
  else if isStudyRequest m then
    { success := true, response := env.studyReply m,
      model_used := strL "study-assistant-skill",
      callbackChunks := skillStreamChunks (env.studyReply m),
      backendInvoked := false }
  else if isPdfRequest m then
    { success := true, response := env.pdfReply m,
      model_used := strL "pdf-service",
      callbackChunks := skillStreamChunks (env.pdfReply m),
      backendInvoked := false }
  else if !env.configured then
    { success := true, response := day20Fallback m,
      model_used := strL "fallback-for-day20-testing",
      callbackChunks := fallbackStreamChunks (day20Fallback m),
      backendInvoked := false }
  else if env.backendRaises then
    { success := false, response := [], model_used := [],
      callbackChunks := env.backendChunks.filter (fun c => decide (c ≠ [])),
      backendInvoked := true }
  else if backendAccumulated env = [] then
    { success := false, response := [], model_used := [],
      callbackChunks := env.backendChunks.filter (fun c => decide (c ≠ [])),
      backendInvoked := true }
  else
    { success := true,
      response := if 3000 < (backendAccumulated env).length then
          (backendAccumulated env).take 2900 ++ strL "..."
        else backendAccumulated env,
      model_used := strL "gemini-1.5-flash",
      callbackChunks := env.backendChunks.filter (fun c => decide (c ≠ [])),
      backendInvoked := true }

lemma pyChunks_mem_length (n : Nat) (l : List α) : ∀ g ∈ pyChunks n l, g.length ≤ n := by
  intro g hg
  unfold pyChunks at hg
  simp only [List.mem_map] at hg
  obtain ⟨i, _, rfl⟩ := hg
  rw [List.length_take]
  exact Nat.min_le_left _ _

/-- C7: on input `"weather in Paris"`, the weather interceptor claims the
turn: the generation backend is never invoked, `model_used` is the weather
skill marker (not the generic-generation model name), and the reply text is
delivered through the chunk callback split into word groups of at most three
words that together cover the whole word sequence of the reply. -/
theorem weather_skill_intercepts_paris (env : GenEnv) :
    (generateStreamingResponse env (strL "weather in Paris")).backendInvoked = false
    ∧ (generateStreamingResponse env (strL "weather in Paris")).success = true
    ∧ (generateStreamingResponse env (strL "weather in Paris")).model_used
        = strL "weather-skill"
    ∧ (generateStreamingResponse env (strL "weather in Paris")).model_used
        ≠ strL "gemini-1.5-flash"
    ∧ (generateStreamingResponse env (strL "weather in Paris")).callbackChunks
        = (pyChunks 3 (splitSpaceSep
              (generateStreamingResponse env (strL "weather in Paris")).response)).map
            (fun g => List.intercalate [' '] g ++ [' '])
    ∧ (pyChunks 3 (splitSpaceSep
          (generateStreamingResponse env (strL "weather in Paris")).response)).flatten
        = splitSpaceSep (generateStreamingResponse env (strL "weather in Paris")).response
    ∧ ∀ g ∈ pyChunks 3 (splitSpaceSep
          (generateStreamingResponse env (strL "weather in Paris")).response),
        g.length ≤ 3 := by
  have hw : isWeatherRequest (strL "weather in Paris") = true := by decide
  unfold generateStreamingResponse
  rw [hw]
  exact ⟨rfl, rfl, rfl,
    (show strL "weather-skill" ≠ strL "gemini-1.5-flash" by decide), rfl,
    pyChunks_flatten 3 (by omega) _, pyChunks_mem_length 3 _⟩

lemma splitDotSpace_cons_ne (c : Char) (hc : c ≠ '.') (l : List Char) :
    splitDotSpace (c :: l) = (splitDotSpace l).modifyHead (c :: ·) := by
  cases l with
  | nil => rfl
  | cons d rest =>
      show splitDotSpace (c :: d :: rest) = _
      rw [splitDotSpace]
      rw [if_neg (fun h => hc h.1)]

lemma splitDotSpace_dotfree_append : ∀ a : List Char, (∀ c ∈ a, c ≠ '.') →
    ∀ s h t, splitDotSpace s = h :: t →
      splitDotSpace (a ++ s) = (a ++ h) :: t := by
  intro a
  induction a with
  | nil =>
      intro _ s h t hs
      simpa using hs
  | cons c a ih =>
      intro ha s h t hs
      have hc : c ≠ '.' := ha c (List.mem_cons_self c a)
      have ih' := ih (fun d hd => ha d (List.mem_cons_of_mem c hd)) s h t hs
      show splitDotSpace (c :: (a ++ s)) = _
      rw [splitDotSpace_cons_ne c hc, ih']
      rfl

lemma stripL_ne_nil_of_mem (c : Char) (hc : ¬c.isWhitespace = true) (l : List Char)
    (hm : c ∈ l) : stripL l ≠ [] := by
  intro h
  unfold stripL at h
  rw [List.reverse_eq_nil_iff, List.dropWhile_eq_nil_iff] at h
  have hsplit : l = l.takeWhile (fun x => x.isWhitespace)
      ++ l.dropWhile (fun x => x.isWhitespace) :=
    (List.takeWhile_append_dropWhile _ _).symm
  rcases List.mem_append.mp (hsplit ▸ hm) with h1 | h2
  · exact hc (List.mem_takeWhile_imp h1)
  · exact hc (h c (List.mem_reverse.mpr h2))

def fallbackPart2 : List Char :=
  strL "This is a Day 20 test response for Murf WebSocket integration"

def fallbackPart3 : List Char :=
  strL "The streaming LLM would normally provide a more detailed response here."

set_option maxRecDepth 20000 in
lemma splitDotSpace_day20_suffix :
    splitDotSpace day20FallbackSuf = [strL "'", fallbackPart2, fallbackPart3] := by
  decide

set_option maxRecDepth 20000 in
lemma day20_suffix_decomp :
    day20FallbackSuf = strL "'" ++ strL ". " ++ fallbackPart2 ++ strL ". " ++ fallbackPart3 := by
  decide

lemma fallback_chunks_flatten (m : List Char) (hm : '.' ∉ m) :
    (fallbackStreamChunks (day20Fallback m)).flatten = day20Fallback m ++ [' '] := by
  have hdotfree : ∀ c ∈ day20FallbackPre ++ m, c ≠ '.' := by
    intro c hcm
    rcases List.mem_append.mp hcm with h1 | h2
    · have hpre : ∀ c ∈ day20FallbackPre, c ≠ '.' := by decide
      exact hpre c h1
    · exact fun he => hm (he ▸ h2)
  have hassoc : day20Fallback m = (day20FallbackPre ++ m) ++ day20FallbackSuf := by
    unfold day20Fallback
    rw [List.append_assoc]
  have hsplit := splitDotSpace_dotfree_append (day20FallbackPre ++ m) hdotfree
    day20FallbackSuf (strL "'") [fallbackPart2, fallbackPart3] splitDotSpace_day20_suffix
  unfold fallbackStreamChunks
  rw [hassoc, hsplit]
  have hkeep1 : decide (stripL ((day20FallbackPre ++ m) ++ strL "'") ≠ []) = true := by
    rw [decide_eq_true_iff]
    apply stripL_ne_nil_of_mem 'H' (by decide)
    exact List.mem_append.mpr (Or.inl (List.mem_append.mpr (Or.inl (by decide))))
  have hlast1 : ((day20FallbackPre ++ m) ++ strL "'").getLast? = some '\'' := by
    rw [List.getLast?_append]
    rfl
  rw [List.filter_cons, hkeep1]
  have hk2 : List.filter (fun c => decide (stripL c ≠ [])) [fallbackPart2, fallbackPart3]
      = [fallbackPart2, fallbackPart3] := by decide
  rw [if_pos rfl, hk2, List.map_cons, List.map_cons, List.map_cons, List.map_nil]
  rw [hlast1]
  have hne1 : (some '\'' = some '.') = False := by simp
  rw [if_neg (by simp)]
  have hif2 : (if fallbackPart2.getLast? = some '.' then fallbackPart2 ++ [' ']
      else fallbackPart2 ++ strL ". ") = fallbackPart2 ++ strL ". " := by decide
  have hif3 : (if fallbackPart3.getLast? = some '.' then fallbackPart3 ++ [' ']
      else fallbackPart3 ++ strL ". ") = fallbackPart3 ++ [' '] := by decide
  rw [hif2, hif3]
  rw [day20_suffix_decomp]
  simp [List.append_assoc]

/-- C6 amended: for a message claimed by no interceptor, with the generation
backend unconfigured, the scripted Day-20 fallback is returned with
`success = true` and the fallback `model_used` marker, without invoking the
backend; the concatenation of the chunks delivered to the callback equals the
returned response followed by one trailing space (for messages containing no
period — the `'. '`-split re-join appends a separator to the last chunk as
well). -/
theorem fallback_response_streaming (env : GenEnv) (m : List Char)
    (hcfg : env.configured = false)
    (hw : isWeatherRequest m = false) (hse : isSearchRequest m = false)
    (hst : isStudyRequest m = false) (hp : isPdfRequest m = false) :
    (generateStreamingResponse env m).success = true
    ∧ (generateStreamingResponse env m).model_used = strL "fallback-for-day20-testing"
    ∧ (generateStreamingResponse env m).backendInvoked = false
    ∧ (generateStreamingResponse env m).response = day20Fallback m
    ∧ ('.' ∉ m →
        (generateStreamingResponse env m).callbackChunks.flatten
          = (generateStreamingResponse env m).response ++ [' ']) := by
  unfold generateStreamingResponse
  rw [hw, hse, hst, hp, hcfg]
  exact ⟨rfl, rfl, rfl, rfl, fun hm => fallback_chunks_flatten m hm⟩

/-- An environment with no configured generation backend. -/
def genEnvNoLLM : GenEnv :=
  { configured := false, weatherReply := fun _ => [], searchReply := fun _ => [],
    studyReply := fun _ => [], pdfReply := fun _ => [],
    backendChunks := [], backendRaises := false }

/-- C6 witness: the amended statement at the concrete message `"hi"`. -/
theorem fallback_response_streaming_witness :
    (generateStreamingResponse genEnvNoLLM (strL "hi")).success = true
    ∧ (generateStreamingResponse genEnvNoLLM (strL "hi")).model_used
        = strL "fallback-for-day20-testing"
    ∧ (generateStreamingResponse genEnvNoLLM (strL "hi")).backendInvoked = false
    ∧ (generateStreamingResponse genEnvNoLLM (strL "hi")).callbackChunks.flatten
        = (generateStreamingResponse genEnvNoLLM (strL "hi")).response ++ [' '] :=
  have h := fallback_response_streaming genEnvNoLLM (strL "hi") rfl
    (by decide) (by decide) (by decide) (by decide)
  ⟨h.1, h.2.1, h.2.2.1, h.2.2.2.2 (by decide)⟩

set_option maxRecDepth 40000 in
/-- C6 counterexample: at the message `"hi"` (claimed by no interceptor,
backend unconfigured) the call succeeds but the concatenation of the chunks
delivered to the callback is not equal to the returned response (it carries a
trailing space). -/
theorem fallback_concat_not_equal_counterexample :
    (generateStreamingResponse genEnvNoLLM (strL "hi")).success = true
    ∧ (generateStreamingResponse genEnvNoLLM (strL "hi")).callbackChunks.flatten
        ≠ (generateStreamingResponse genEnvNoLLM (strL "hi")).response := by
  constructor
  · decide
  · decide

/-- C8 amended: the 3000-character cap applies to the generation-backend
streaming path: with no interceptor, a configured backend, no exception and a
non-empty accumulation, the result has `success = true`, its response is at
most 3000 characters, and whenever the accumulated text exceeds 3000
characters the response is the first 2900 characters followed by `"..."`.
(Skill and unconfigured-fallback paths return `success = true` with no length
cap.) -/
theorem backend_response_truncated (env : GenEnv) (m : List Char)
    (hw : isWeatherRequest m = false) (hse : isSearchRequest m = false)
    (hst : isStudyRequest m = false) (hp : isPdfRequest m = false)
    (hcfg : env.configured = true) (hraise : env.backendRaises = false)
    (hacc : backendAccumulated env ≠ []) :
    (generateStreamingResponse env m).success = true
    ∧ (generateStreamingResponse env m).response.length ≤ 3000
    ∧ (3000 < (backendAccumulated env).length →
        (generateStreamingResponse env m).response
          = (backendAccumulated env).take 2900 ++ strL "...") := by
  unfold generateStreamingResponse
  rw [hw, hse, hst, hp, hcfg, hraise, if_neg hacc]
  refine ⟨rfl, ?_, ?_⟩
  · show (if 3000 < (backendAccumulated env).length then
        (backendAccumulated env).take 2900 ++ strL "..."
      else backendAccumulated env).length ≤ 3000
    by_cases h3 : 3000 < (backendAccumulated env).length
    · rw [if_pos h3, List.length_append, List.length_take]
      have h4 : (strL "...").length = 3 := by decide
      rw [h4]
      omega
    · rw [if_neg h3]
      omega
  · intro h3
    show (if 3000 < (backendAccumulated env).length then
        (backendAccumulated env).take 2900 ++ strL "..."
      else backendAccumulated env)
      = (backendAccumulated env).take 2900 ++ strL "..."
    rw [if_pos h3]

/-- An environment whose generation backend is configured and streams one
chunk. -/
def genEnvBackend : GenEnv :=
  { configured := true, weatherReply := fun _ => [], searchReply := fun _ => [],
    studyReply := fun _ => [], pdfReply := fun _ => [],
    backendChunks := [strL "ok"], backendRaises := false }

/-- C8 witness: the amended statement at the concrete message `"hi"` with a
short backend stream. -/
theorem backend_response_truncated_witness :
    (generateStreamingResponse genEnvBackend (strL "hi")).success = true
    ∧ (generateStreamingResponse genEnvBackend (strL "hi")).response.length ≤ 3000
    ∧ (3000 < (backendAccumulated genEnvBackend).length →
        (generateStreamingResponse genEnvBackend (strL "hi")).response
          = (backendAccumulated genEnvBackend).take 2900 ++ strL "...") :=
  backend_response_truncated genEnvBackend (strL "hi")
    (by decide) (by decide) (by decide) (by decide) rfl rfl (by decide)

lemma lowerL_replicate_a (n : Nat) :
    lowerL (List.replicate n 'a') = List.replicate n 'a' := by
  unfold lowerL
  rw [List.map_replicate]
  have h : Char.toLower 'a' = 'a' := by decide
  rw [h]

lemma no_keyword_in_replicate_a (n : Nat) (k : List Char)
    (hk : k.any (fun c => decide (c ≠ 'a')) = true) :
    hasSub k (List.replicate n 'a') = false := by
  rw [List.any_eq_true] at hk
  obtain ⟨c, hcmem, hc⟩ := hk
  have hc' : c ≠ 'a' := of_decide_eq_true hc
  unfold hasSub
  rw [decide_eq_false_iff_not]
  intro hinf
  have hmem := hinf.subset hcmem
  rw [List.mem_replicate] at hmem
  exact hc' hmem.2

lemma replicate_a_no_skill (n : Nat) :
    isWeatherRequest (List.replicate n 'a') = false
    ∧ isSearchRequest (List.replicate n 'a') = false
    ∧ isStudyRequest (List.replicate n 'a') = false
    ∧ isPdfRequest (List.replicate n 'a') = false := by
  have hall : ∀ k ∈ weatherKeywords ++ searchKeywords ++ studyKeywords ++ pdfKeywords,
      hasSub k (List.replicate n 'a') = false := by
    intro k hk
    apply no_keyword_in_replicate_a
    fin_cases hk <;> decide
  refine ⟨?_, ?_, ?_, ?_⟩
  · unfold isWeatherRequest
    rw [lowerL_replicate_a, List.any_eq_false]
    intro k hk
    simp [hall k (by simp [List.mem_append, hk])]
  · unfold isSearchRequest
    rw [lowerL_replicate_a, List.any_eq_false]
    intro k hk
    simp [hall k (by simp [List.mem_append, hk])]
  · unfold isStudyRequest
    rw [lowerL_replicate_a, List.any_eq_false]
    intro k hk
    simp [hall k (by simp [List.mem_append, hk])]
  · unfold isPdfRequest
    rw [lowerL_replicate_a, List.any_eq_false]
    intro k hk
    simp [hall k (by simp [List.mem_append, hk])]

/-- C8 counterexample: a 3000-character message of `'a'`s triggers no skill;
with the backend unconfigured the fallback path returns `success = true` with
a response longer than 3000 characters — not every `success = true` result is
capped at 3000. -/
theorem success_response_over_3000_counterexample :
    (generateStreamingResponse genEnvNoLLM (List.replicate 3000 'a')).success = true
    ∧ 3000 < (generateStreamingResponse genEnvNoLLM (List.replicate 3000 'a')).response.length := by
  obtain ⟨hw, hse, hst, hp⟩ := replicate_a_no_skill 3000
  unfold generateStreamingResponse
  rw [hw, hse, hst, hp]
  refine ⟨rfl, ?_⟩
  show 3000 < (day20Fallback (List.replicate 3000 'a')).length
  unfold day20Fallback
  rw [List.length_append, List.length_append, List.length_replicate]
  have h1 : day20FallbackPre.length = 18 := by decide
  omega

/-- C1 witness: the chunk contract at a concrete three-character payload. -/
theorem stream_audio_chunk_contract_witness :
    (streamAudioChunks (strL "abc")).map AudioChunkEvent.chunk_index
        = List.range' 1 (streamAudioComplete (strL "abc")).total_chunks
    ∧ ({ chunk_index := 1, chunk_size := 3, total_chunks := 1 } : AudioChunkEvent).total_chunks
        = (streamAudioComplete (strL "abc")).total_chunks
    ∧ ((streamAudioChunks (strL "abc")).map AudioChunkEvent.chunk_size).sum
        = (streamAudioComplete (strL "abc")).total_size :=
  ⟨(stream_audio_chunk_contract (strL "abc")).1,
   (stream_audio_chunk_contract (strL "abc")).2.1 _ (by decide),
   (stream_audio_chunk_contract (strL "abc")).2.2⟩

/-- A concrete environment whose weather skill replies with a five-word
sentence. -/
def genEnvWeather : GenEnv :=
  { configured := true, weatherReply := fun _ => strL "sunny in Paris today yes",
    searchReply := fun _ => [], studyReply := fun _ => [], pdfReply := fun _ => [],
    backendChunks := [], backendRaises := false }

/-- C7 witness: the interception at a concrete environment, including the
3-word bound for a concrete group. -/
theorem weather_skill_intercepts_paris_witness :
    (generateStreamingResponse genEnvWeather (strL "weather in Paris")).model_used
        = strL "weather-skill"
    ∧ (generateStreamingResponse genEnvWeather (strL "weather in Paris")).backendInvoked
        = false
    ∧ ([strL "sunny", strL "in", strL "Paris"] : List (List Char)).length ≤ 3 :=
  ⟨(weather_skill_intercepts_paris genEnvWeather).2.2.1,
   (weather_skill_intercepts_paris genEnvWeather).1,
   (weather_skill_intercepts_paris genEnvWeather).2.2.2.2.2.2
     [strL "sunny", strL "in", strL "Paris"] (by decide)⟩
